import Mathlib

set_option autoImplicit false

/-!
Verification of the xdeployment composition function
(go-modules/composer and go-modules/xdeployment).

The Go sources are shallowly embedded: Go structs become Lean structures,
Go maps become association lists carrying an iteration order, fallible Go
functions return `Except String`, and the mutable `RunFunctionResponse`
is threaded explicitly through the handler.  The SDK conversion
`composed.From` is external machinery and appears as an explicit
`fromFn` parameter; `composedFrom` is its instantiation for the three
resource kinds registered by `init()`.
-/

namespace XDeploymentFn

/-- Gateway target reference from the function input
(`input/v1beta1.GatewayConfig`); both fields are plain Go strings, so a
configured gateway always carries a name and a namespace. -/
structure GatewayConfig where
  name : String
  nspace : String
deriving Repr, DecidableEq

/-- Static configuration input (`input/v1beta1.XDeploymentDefaults`);
the gateway reference is a nil-able pointer in Go, hence `Option`. -/
structure XDeploymentDefaults where
  gateway : Option GatewayConfig
deriving Repr, DecidableEq

/-- Spec of the XDeployment composite resource
(`crossplane-xrd-generator/resources/xdeployment.XDeploymentSpec`).
`env` is a Go `map[string]string`, embedded as an association list in
iteration order. -/
structure XDeploymentSpec where
  image : String
  replicas : Option Int
  port : Option Int
  hostname : String
  env : List (String × String)
deriving Repr, DecidableEq

/-- The XDeployment composite resource: its object name plus its spec. -/
structure XDeployment where
  name : String
  spec : XDeploymentSpec
deriving Repr, DecidableEq

/-- A status condition of an observed object: `(type, status)`. -/
structure K8sCondition where
  ctype : String
  status : String
deriving Repr, DecidableEq

/-- Observed `appsv1.Deployment`: only the status conditions are read. -/
structure ObservedDeployment where
  conditions : List K8sCondition
deriving Repr, DecidableEq

/-- Observed `corev1.Service`: only `spec.clusterIP` is read. -/
structure ObservedService where
  clusterIP : String
deriving Repr, DecidableEq

/-- One parent entry of an observed HTTPRoute status. -/
structure RouteParentStatus where
  conditions : List K8sCondition
deriving Repr, DecidableEq

/-- Observed `gwapiv1.HTTPRoute`: only `status.parents` is read. -/
structure ObservedHTTPRoute where
  parents : List RouteParentStatus
deriving Repr, DecidableEq

/-- A raw observed composed resource as it sits in the request map.
`corrupt` stands for content that `FromUnstructured` rejects; decoding a
well-formed value into a mismatched kind succeeds leniently with zero
values, as exercised by `TestConvertObserved_TypeMismatch`. -/
inductive ObservedRaw where
  | deployment (o : ObservedDeployment)
  | service (o : ObservedService)
  | httproute (o : ObservedHTTPRoute)
  | corrupt (msg : String)
deriving Repr, DecidableEq

/-- Lookup in a Go map embedded as an association list. -/
def lookupName {α : Type} : List (String × α) → String → Option α
  | [], _ => none
  | (k, v) :: rest, key => if k = key then some v else lookupName rest key

/-- Decoding an observed value as an `appsv1.Deployment`
(`runtime.DefaultUnstructuredConverter.FromUnstructured`). -/
def decodeDeployment : ObservedRaw → Except String ObservedDeployment
  | .deployment o => .ok o
  | .corrupt msg => .error msg
  | _ => .ok { conditions := [] }

/-- Decoding an observed value as a `corev1.Service`. -/
def decodeService : ObservedRaw → Except String ObservedService
  | .service o => .ok o
  | .corrupt msg => .error msg
  | _ => .ok { clusterIP := "" }

/-- Decoding an observed value as a `gwapiv1.HTTPRoute`. -/
def decodeHTTPRoute : ObservedRaw → Except String ObservedHTTPRoute
  | .httproute o => .ok o
  | .corrupt msg => .error msg
  | _ => .ok { parents := [] }

/-- ConvertObserved (composer.go): look up the observed resource by name
and deserialize it.  Returns `none` if the resource has not yet been
observed; an error only if the stored value fails to decode. -/
def ConvertObserved {T : Type} (decode : ObservedRaw → Except String T)
    (observed : List (String × ObservedRaw)) (resourceName : String) :
    Except String (Option T) :=
  match lookupName observed resourceName with
  | some obs =>
    match decode obs with
    | .error e => .error e
    | .ok v => .ok (some v)
  | none => .ok none

/-- Container environment variable (`corev1.EnvVar`). -/
structure EnvVar where
  name : String
  value : String
deriving Repr, DecidableEq

/-- Container port (`corev1.ContainerPort`). -/
structure ContainerPort where
  name : String
  containerPort : Int
deriving Repr, DecidableEq

/-- Container of the built Deployment's pod template. -/
structure Container where
  name : String
  image : String
  env : List EnvVar
  ports : List ContainerPort
deriving Repr, DecidableEq

/-- The built `appsv1.Deployment` (fields the function sets). -/
structure DeploymentRes where
  name : String
  replicas : Int
  selector : List (String × String)
  container : Container
deriving Repr, DecidableEq

/-- Port of the built Service (`corev1.ServicePort`). -/
structure ServicePort where
  name : String
  protocol : String
  port : Int
  targetPort : Int
deriving Repr, DecidableEq

/-- The built `corev1.Service` (fields the function sets). -/
structure ServiceRes where
  name : String
  svcType : String
  selector : List (String × String)
  ports : List ServicePort
deriving Repr, DecidableEq

/-- Parent reference of the built HTTPRoute. -/
structure ParentReference where
  name : String
  nspace : String
deriving Repr, DecidableEq

/-- Backend reference of the built HTTPRoute. -/
structure BackendRef where
  name : String
  port : Int
deriving Repr, DecidableEq

/-- The built `gwapiv1.HTTPRoute` (fields the function sets). -/
structure HTTPRouteRes where
  name : String
  parentRefs : List ParentReference
  hostnames : List String
  backendRefs : List BackendRef
deriving Repr, DecidableEq

/-- A built composed resource of one of the three kinds this function
produces (the `runtime.Object` passed to `ComposeDesiredResourceFrom`). -/
inductive ResourceBody where
  | deployment (d : DeploymentRes)
  | service (s : ServiceRes)
  | httproute (h : HTTPRouteRes)
deriving Repr, DecidableEq

/-- FunctionContext (composer.go) instantiated at the xdeployment types:
observed composed resources, the typed composite, and the input defaults.
The mutable response pointer is threaded explicitly instead. -/
structure XContext where
  observed : List (String × ObservedRaw)
  xr : XDeployment
  defaults : Option XDeploymentDefaults
deriving Repr, DecidableEq

/-- BaseComposer (composer.go): shared fields of every composer. -/
structure XComposer where
  functionContext : XContext
  resourceName : String
  conditionType : String
deriving Repr, DecidableEq

/-- Deployment composer (fn-deployment.go). -/
structure Deployment extends XComposer where
  observedResource : Option ObservedDeployment
deriving Repr, DecidableEq

/-- Service composer (fn-service.go). -/
structure Service extends XComposer where
  observedResource : Option ObservedService
deriving Repr, DecidableEq

/-- HttpRoute composer (fn-httproute.go). -/
structure HttpRoute extends XComposer where
  observedResource : Option ObservedHTTPRoute
deriving Repr, DecidableEq

/-- NewDeployment (fn-deployment.go). -/
def NewDeployment (f : XContext) : Except String Deployment :=
  let resourceName := "xdeployment-deployment-" ++ f.xr.name
  match ConvertObserved decodeDeployment f.observed resourceName with
  | .error e => .error e
  | .ok observedStructured =>
    .ok { functionContext := f
          resourceName := resourceName
          conditionType := "DeploymentReady"
          observedResource := observedStructured }

/-- NewService (fn-service.go). -/
def NewService (f : XContext) : Except String Service :=
  let resourceName := "xdeployment-service-" ++ f.xr.name
  match ConvertObserved decodeService f.observed resourceName with
  | .error e => .error e
  | .ok observedStructured =>
    .ok { functionContext := f
          resourceName := resourceName
          conditionType := "ServiceReady"
          observedResource := observedStructured }

/-- NewHttpRoute (fn-httproute.go). -/
def NewHttpRoute (f : XContext) : Except String HttpRoute :=
  let resourceName := "xdeployment-httproute-" ++ f.xr.name
  match ConvertObserved decodeHTTPRoute f.observed resourceName with
  | .error e => .error e
  | .ok observedStructured =>
    .ok { functionContext := f
          resourceName := resourceName
          conditionType := "HttpRouteReady"
          observedResource := observedStructured }

/-- Lexicographic comparison of character lists, the order `sort.Strings`
sorts by (increasing byte/code-point order). -/
def charListLe : List Char → List Char → Bool
  | [], _ => true
  | _ :: _, [] => false
  | c :: cs, d :: ds =>
    if c.toNat < d.toNat then true
    else if d.toNat < c.toNat then false
    else charListLe cs ds

/-- Lexicographic string comparison used by the key sort. -/
def strLe (a b : String) : Bool :=
  charListLe a.data b.data

/-- The key sort order as a decidable relation. -/
def strLeP (a b : String) : Prop :=
  strLe a b = true

instance : DecidableRel strLeP := fun a b => inferInstanceAs (Decidable (strLe a b = true))

/-- convertEnvVars (fn-deployment.go): convert the env map to a slice of
`corev1.EnvVar` with keys sorted (`sort.Strings`) for deterministic
ordering. -/
def convertEnvVars (envMap : List (String × String)) : List EnvVar :=
  if envMap.length = 0 then []
  else
    let keys := (envMap.map Prod.fst).insertionSort strLeP
    keys.map (fun key => { name := key, value := (lookupName envMap key).getD "" })

/-- Deployment.createResource (fn-deployment.go): always builds; replicas
default to 2 when unset; the container port is included only when
`spec.port` is set. -/
def Deployment.createResource (d : Deployment) : DeploymentRes :=
  let xd := d.functionContext.xr
  let replicas : Int :=
    match xd.spec.replicas with
    | none => 2
    | some r => r
  let container : Container :=
    { name := xd.name
      image := xd.spec.image
      env := convertEnvVars xd.spec.env
      ports :=
        match xd.spec.port with
        | some p => [{ name := "http", containerPort := p }]
        | none => [] }
  { name := xd.name
    replicas := replicas
    selector := [("app.kubernetes.io/name", xd.name)]
    container := container }

/-- Deployment.IsReady (fn-deployment.go): the observed Deployment has an
Available condition with status True. -/
def Deployment.IsReady (d : Deployment) : Bool :=
  match d.observedResource with
  | none => false
  | some o => o.conditions.any (fun c => c.ctype == "Available" && c.status == "True")

/-- Service.createResource (fn-service.go): `none` when no port is set;
otherwise a ClusterIP service listening on 8080 and forwarding to the
spec's port. -/
def Service.createResource (s : Service) : Option ServiceRes :=
  let xd := s.functionContext.xr
  match xd.spec.port with
  | none => none
  | some p =>
    some { name := xd.name
           svcType := "ClusterIP"
           selector := [("app.kubernetes.io/name", xd.name)]
           ports := [{ name := "http", protocol := "TCP", port := 8080, targetPort := p }] }

/-- Service.IsReady (fn-service.go): a ClusterIP has been assigned. -/
def Service.IsReady (s : Service) : Bool :=
  match s.observedResource with
  | none => false
  | some o => o.clusterIP != ""

/-- HttpRoute.createResource (fn-httproute.go): `none` unless the gateway
defaults are configured and the spec sets a port and a hostname. -/
def HttpRoute.createResource (h : HttpRoute) : Option HTTPRouteRes :=
  let xd := h.functionContext.xr
  match h.functionContext.defaults with
  | none => none
  | some dv =>
    match dv.gateway with
    | none => none
    | some gateway =>
      if xd.spec.port.isNone || xd.spec.hostname == "" then none
      else
        some { name := xd.name
               parentRefs := [{ name := gateway.name, nspace := gateway.nspace }]
               hostnames := [xd.spec.hostname]
               backendRefs := [{ name := xd.name, port := 8080 }] }

/-- HttpRoute.IsReady (fn-httproute.go): some parent reports an Accepted
condition with status True. -/
def HttpRoute.IsReady (h : HttpRoute) : Bool :=
  match h.observedResource with
  | none => false
  | some o =>
    o.parents.any (fun parent =>
      parent.conditions.any (fun c => c.ctype == "Accepted" && c.status == "True"))

/-- Target of a response condition. -/
inductive ConditionTarget where
  | composite
  | compositeAndClaim
deriving Repr, DecidableEq

/-- A status condition of the function response. -/
structure Condition where
  ctype : String
  status : Bool
  reason : String
  message : Option String
  target : ConditionTarget
deriving Repr, DecidableEq

/-- One entry of the desired composed resources map
(`resource.DesiredComposed`): the body plus the ready flag. -/
structure DesiredEntry where
  resource : ResourceBody
  ready : Bool
deriving Repr, DecidableEq

/-- The function response: conditions, fatal results, and the desired
composed resources map. -/
structure Response where
  conditions : List Condition
  results : List String
  desired : List (String × DesiredEntry)
deriving Repr, DecidableEq

/-- response.Fatal: record a fatal result on the response. -/
def responseFatal (rsp : Response) (msg : String) : Response :=
  { rsp with results := rsp.results ++ [msg] }

/-- response.ConditionTrue followed by the target setter. -/
def conditionTrue (rsp : Response) (ctype reason : String) (target : ConditionTarget) :
    Response :=
  { rsp with
    conditions := rsp.conditions ++
      [{ ctype := ctype, status := true, reason := reason, message := none, target := target }] }

/-- response.ConditionFalse, optional WithMessage, and the target setter. -/
def conditionFalse (rsp : Response) (ctype reason : String) (message : Option String)
    (target : ConditionTarget) : Response :=
  { rsp with
    conditions := rsp.conditions ++
      [{ ctype := ctype, status := false, reason := reason, message := message, target := target }] }

/-- A Go interface value holding a `runtime.Object`: the nil interface,
a non-nil interface wrapping a typed nil pointer, or a real object. -/
inductive GoObject (α : Type) where
  | nilInterface
  | typedNil
  | obj (a : α)
deriving Repr, DecidableEq

/-- View of a Go typed pointer as an interface value: a nil pointer
becomes a non-nil interface wrapping a typed nil. -/
def toGoObject {α : Type} : Option α → GoObject α
  | none => .typedNil
  | some a => .obj a

/-- DesiredResource (composer.go): a resource name paired with the
desired composed state and its ready flag. -/
structure DesiredResource where
  name : String
  resource : ResourceBody
  ready : Bool
deriving Repr, DecidableEq

/-- ComposeDesiredResourceFrom (composer.go): nil and typed-nil inputs
mean intentional absence; a conversion failure records a fatal result and
returns the error; otherwise the object is wrapped with `ready := false`.
The SDK conversion `composed.From` is the `fromFn` parameter. -/
def ComposeDesiredResourceFrom (fromFn : ResourceBody → Except String ResourceBody)
    (rsp : Response) (resourceName : String) (structuredResource : GoObject ResourceBody) :
    Response × Except String (Option DesiredResource) :=
  match structuredResource with
  | .nilInterface => (rsp, .ok none)
  | .typedNil => (rsp, .ok none)
  | .obj r =>
    match fromFn r with
    | .error e =>
      (responseFatal rsp ("cannot convert to composed resource: " ++ e), .error e)
    | .ok c => (rsp, .ok (some { name := resourceName, resource := c, ready := false }))

/-- Conversion `composed.From` as it behaves in this binary: `init()`
registers the schemes of all three produced kinds, so converting any of
the typed structs succeeds and preserves the content. -/
def composedFrom : ResourceBody → Except String ResourceBody := fun r => .ok r

/-- Deployment.ComposeDesiredResource (fn-deployment.go): the built
Deployment is never a nil pointer. -/
def Deployment.ComposeDesiredResource (fromFn : ResourceBody → Except String ResourceBody)
    (rsp : Response) (d : Deployment) : Response × Except String (Option DesiredResource) :=
  ComposeDesiredResourceFrom fromFn rsp d.resourceName
    (.obj (ResourceBody.deployment d.createResource))

/-- Service.ComposeDesiredResource (fn-service.go): the built Service is
a nil pointer when no port is set. -/
def Service.ComposeDesiredResource (fromFn : ResourceBody → Except String ResourceBody)
    (rsp : Response) (s : Service) : Response × Except String (Option DesiredResource) :=
  ComposeDesiredResourceFrom fromFn rsp s.resourceName
    (toGoObject (s.createResource.map ResourceBody.service))

/-- HttpRoute.ComposeDesiredResource (fn-httproute.go). -/
def HttpRoute.ComposeDesiredResource (fromFn : ResourceBody → Except String ResourceBody)
    (rsp : Response) (h : HttpRoute) : Response × Except String (Option DesiredResource) :=
  ComposeDesiredResourceFrom fromFn rsp h.resourceName
    (toGoObject (h.createResource.map ResourceBody.httproute))

/-- A value of the ComposableResource interface: one of the three
concrete composers. -/
inductive ComposerV where
  | deployment (d : Deployment)
  | service (s : Service)
  | httproute (h : HttpRoute)
deriving Repr, DecidableEq

/-- Dynamic dispatch of ComposeDesiredResource. -/
def ComposerV.composeDesiredResource (fromFn : ResourceBody → Except String ResourceBody)
    (rsp : Response) : ComposerV → Response × Except String (Option DesiredResource)
  | .deployment d => d.ComposeDesiredResource fromFn rsp
  | .service s => s.ComposeDesiredResource fromFn rsp
  | .httproute h => h.ComposeDesiredResource fromFn rsp

/-- Dynamic dispatch of IsReady. -/
def ComposerV.isReady : ComposerV → Bool
  | .deployment d => d.IsReady
  | .service s => s.IsReady
  | .httproute h => h.IsReady

/-- Dynamic dispatch of GetConditionType. -/
def ComposerV.getConditionType : ComposerV → String
  | .deployment d => d.conditionType
  | .service s => s.conditionType
  | .httproute h => h.conditionType

/-- Update of a Go map under a key: replaces the entry if the key is
present, appends it otherwise. -/
def insertEntry : List (String × DesiredEntry) → String → DesiredEntry →
    List (String × DesiredEntry)
  | [], key, v => [(key, v)]
  | (k, w) :: rest, key, v =>
    if k = key then (key, v) :: rest else (k, w) :: insertEntry rest key v

/-- The composer loop of RunFunction (fn.go lines 140-165): on a build
error, record a CompositionError condition of the composer's condition
type and abort; on absence, skip; otherwise set the ready flag from
IsReady, record the readiness condition, and merge the desired entry. -/
def composeLoop (fromFn : ResourceBody → Except String ResourceBody) :
    List ComposerV → Response → List (String × DesiredEntry) →
    Except (Response × String) (Response × List (String × DesiredEntry))
  | [], rsp, desired => .ok (rsp, desired)
  | r :: rest, rsp, desired =>
    match ComposerV.composeDesiredResource fromFn rsp r with
    | (rsp1, .error e) =>
      .error (conditionFalse rsp1 r.getConditionType "CompositionError" (some e) .composite, e)
    | (rsp1, .ok none) => composeLoop fromFn rest rsp1 desired
    | (rsp1, .ok (some dr)) =>
      if r.isReady then
        composeLoop fromFn rest
          (conditionTrue rsp1 r.getConditionType "Available" .composite)
          (insertEntry desired dr.name { resource := dr.resource, ready := true })
      else
        composeLoop fromFn rest
          (conditionFalse rsp1 r.getConditionType "Unavailable"
            (some (r.getConditionType ++ " is not yet available")) .composite)
          (insertEntry desired dr.name { resource := dr.resource, ready := false })

/-- The inbound request after the SDK getters: each getter either yields
its decoded value or fails. -/
structure Request where
  inputR : Except String XDeploymentDefaults
  observedR : Except String (List (String × ObservedRaw))
  desiredR : Except String (List (String × DesiredEntry))
  xrR : Except String XDeployment
deriving Repr

/-- Desired resources carried over from the request by `response.To`
(the raw passthrough, viewed through its parsed image). -/
def Request.rawDesired (req : Request) : List (String × DesiredEntry) :=
  match req.desiredR with
  | .ok m => m
  | .error _ => []

/-- response.To: a fresh response carrying the request's desired state. -/
def responseTo (req : Request) : Response :=
  { conditions := [], results := [], desired := req.rawDesired }

/-- InternalErrorResponse (fn.go): a FunctionSuccess=False condition with
reason InternalError targeting composite and claim, then a fatal result. -/
def InternalErrorResponse (rsp : Response) (err : String) : Response :=
  responseFatal
    (conditionFalse rsp "FunctionSuccess" "InternalError" none .compositeAndClaim) err

/-- response.SetDesiredComposedResources: replace the response's desired
resources with the aggregated map. -/
def setDesiredComposedResources (rsp : Response)
    (desired : List (String × DesiredEntry)) : Response :=
  { rsp with desired := desired }

/-- RunFunction (fn.go): decode the inputs, construct the composers, run
the composer loop, and serialize the desired set.  The Go function
returns a response pointer and an error; on a loop error the response is
discarded and only the error is returned. -/
def RunFunction (fromFn : ResourceBody → Except String ResourceBody) (req : Request) :
    Option Response × Option String :=
  let rsp := responseTo req
  match req.inputR with
  | .error e => (some (InternalErrorResponse rsp ("cannot get Function input: " ++ e)), none)
  | .ok defaultValues =>
    match req.observedR with
    | .error e =>
      (some (InternalErrorResponse rsp ("cannot get observed resources: " ++ e)), none)
    | .ok observed =>
      match req.desiredR with
      | .error e =>
        (some (InternalErrorResponse rsp ("cannot get desired resources: " ++ e)), none)
      | .ok desired =>
        match req.xrR with
        | .error e =>
          (some (InternalErrorResponse rsp
            ("cannot convert composite resource to XDeployment: " ++ e)), none)
        | .ok xd =>
          let fnContext : XContext :=
            { observed := observed, xr := xd, defaults := some defaultValues }
          match NewDeployment fnContext with
          | .error e => (some (responseFatal rsp ("cannot create deployment: " ++ e)), none)
          | .ok deployment =>
            match NewService fnContext with
            | .error e => (some (responseFatal rsp ("cannot create service: " ++ e)), none)
            | .ok service =>
              match NewHttpRoute fnContext with
              | .error e =>
                (some (responseFatal rsp ("cannot create httpRoute: " ++ e)), none)
              | .ok httpRoute =>
                let resources : List ComposerV :=
                  [.deployment deployment, .service service, .httproute httpRoute]
                match composeLoop fromFn resources rsp desired with
                | .error (_, e) => (none, some e)
                | .ok (rspFinal, desiredFinal) =>
                  (some (setDesiredComposedResources rspFinal desiredFinal), none)

/-! Order-theoretic facts about the key sort relation, and lookup lemmas
for the embedded Go maps. -/

theorem char_eq_of_toNat_eq {c d : Char} (h : c.toNat = d.toNat) : c = d :=
  Char.ext (UInt32.ext h)

theorem string_eq_of_data_eq {a b : String} (h : a.data = b.data) : a = b := by
  cases a; cases b; simp_all

theorem charListLe_total : ∀ x y : List Char, charListLe x y = true ∨ charListLe y x = true
  | [], _ => Or.inl rfl
  | _ :: _, [] => Or.inr rfl
  | c :: cs, d :: ds => by
    rcases Nat.lt_trichotomy c.toNat d.toNat with h | h | h
    · left; simp [charListLe, h]
    · rcases charListLe_total cs ds with ih | ih
      · left; simp [charListLe, h, ih]
      · right; simp [charListLe, h.symm, ih]
    · right; simp [charListLe, h]

theorem charListLe_trans :
    ∀ x y z : List Char, charListLe x y = true → charListLe y z = true →
      charListLe x z = true
  | [], _, _ => by intro _ _; rfl
  | _ :: _, [], _ => by intro h _; simp [charListLe] at h
  | _ :: _, _ :: _, [] => by intro _ h; simp [charListLe] at h
  | c :: cs, d :: ds, e :: es => by
    intro h1 h2
    rcases Nat.lt_trichotomy c.toNat d.toNat with hcd | hcd | hcd
    · rcases Nat.lt_trichotomy d.toNat e.toNat with hde | hde | hde
      · simp [charListLe, Nat.lt_trans hcd hde]
      · simp [charListLe, hde ▸ hcd]
      · simp [charListLe, hde, Nat.lt_asymm hde] at h2
    · rcases Nat.lt_trichotomy d.toNat e.toNat with hde | hde | hde
      · simp [charListLe, hcd ▸ hde]
      · have h1' : charListLe cs ds = true := by
          simpa [charListLe, hcd] using h1
        have h2' : charListLe ds es = true := by
          simpa [charListLe, hde] using h2
        simp [charListLe, hcd.trans hde, charListLe_trans cs ds es h1' h2']
      · simp [charListLe, hde, Nat.lt_asymm hde] at h2
    · simp [charListLe, hcd, Nat.lt_asymm hcd] at h1

theorem charListLe_antisymm :
    ∀ x y : List Char, charListLe x y = true → charListLe y x = true → x = y
  | [], [] => by intro _ _; rfl
  | [], _ :: _ => by intro _ h; simp [charListLe] at h
  | _ :: _, [] => by intro h _; simp [charListLe] at h
  | c :: cs, d :: ds => by
    intro h1 h2
    rcases Nat.lt_trichotomy c.toNat d.toNat with h | h | h
    · simp [charListLe, h, Nat.lt_asymm h] at h2
    · have h1' : charListLe cs ds = true := by
        simpa [charListLe, h] using h1
      have h2' : charListLe ds cs = true := by
        simpa [charListLe, h.symm] using h2
      rw [char_eq_of_toNat_eq h, charListLe_antisymm cs ds h1' h2']
    · simp [charListLe, h, Nat.lt_asymm h] at h1

instance : IsTotal String strLeP :=
  ⟨fun a b => charListLe_total a.data b.data⟩

instance : IsTrans String strLeP :=
  ⟨fun a b c => charListLe_trans a.data b.data c.data⟩

instance : IsAntisymm String strLeP :=
  ⟨fun a b h1 h2 => string_eq_of_data_eq (charListLe_antisymm a.data b.data h1 h2)⟩

theorem lookupName_eq_of_mem {α : Type} :
    ∀ (l : List (String × α)) (k : String) (v : α),
      (l.map Prod.fst).Nodup → (k, v) ∈ l → lookupName l k = some v
  | [], _, _ => by intro _ h; simp at h
  | (k', v') :: rest, k, v => by
    intro hnd hm
    simp only [List.map_cons, List.nodup_cons] at hnd
    rcases List.mem_cons.mp hm with h | h
    · obtain ⟨hk, hv⟩ := Prod.mk.injEq .. ▸ h
      simp [lookupName, hk.symm, hv]
    · have hne : k' ≠ k := by
        intro he
        exact hnd.1 (he ▸ List.mem_map_of_mem Prod.fst h)
      simp [lookupName, hne, lookupName_eq_of_mem rest k v hnd.2 h]

theorem convertEnvVars_names_sorted (l : List (String × String)) :
    List.Sorted strLeP ((convertEnvVars l).map EnvVar.name) := by
  unfold convertEnvVars
  by_cases h : l.length = 0
  · simp [h]
  · rw [if_neg h, List.map_map]
    have hid : (EnvVar.name ∘ fun key =>
        ({ name := key, value := (lookupName l key).getD "" } : EnvVar)) = id := rfl
    rw [hid, List.map_id]
    exact List.sorted_insertionSort strLeP _

theorem convertEnvVars_perm (l₁ l₂ : List (String × String))
    (hnd : (l₁.map Prod.fst).Nodup) (hp : l₁.Perm l₂) :
    convertEnvVars l₁ = convertEnvVars l₂ := by
  by_cases h : l₁.length = 0
  · have h1 : l₁ = [] := List.length_eq_zero.mp h
    subst h1
    have h2 : l₂ = [] := hp.nil_eq.symm
    rw [h2]
  · have hlen : ¬l₂.length = 0 := by rw [← hp.length_eq]; exact h
    have hkp : (l₁.map Prod.fst).Perm (l₂.map Prod.fst) := hp.map Prod.fst
    have hnd₂ : (l₂.map Prod.fst).Nodup := hkp.nodup_iff.mp hnd
    have hsort : (l₁.map Prod.fst).insertionSort strLeP
        = (l₂.map Prod.fst).insertionSort strLeP :=
      List.eq_of_perm_of_sorted
        (((List.perm_insertionSort strLeP _).trans hkp).trans
          (List.perm_insertionSort strLeP _).symm)
        (List.sorted_insertionSort strLeP _) (List.sorted_insertionSort strLeP _)
    unfold convertEnvVars
    rw [if_neg h, if_neg hlen, hsort]
    apply List.map_congr_left
    intro k hk
    have hk2 : k ∈ l₂.map Prod.fst := List.mem_insertionSort strLeP |>.mp hk
    obtain ⟨⟨k', v⟩, hmem, hfst⟩ := List.mem_map.mp hk2
    cases hfst
    have m1 : (k', v) ∈ l₁ := hp.mem_iff.mpr hmem
    rw [lookupName_eq_of_mem l₁ k' v hnd m1, lookupName_eq_of_mem l₂ k' v hnd₂ hmem]

/-! Inversion lemmas for the composer constructors, step lemmas for the
composer loop, and facts about the desired-map update. -/

theorem NewDeployment_ok {f : XContext} {d : Deployment} (h : NewDeployment f = .ok d) :
    d.functionContext = f ∧ d.resourceName = "xdeployment-deployment-" ++ f.xr.name
      ∧ d.conditionType = "DeploymentReady" := by
  simp only [NewDeployment] at h
  cases hc : ConvertObserved decodeDeployment f.observed ("xdeployment-deployment-" ++ f.xr.name) with
  | error e => rw [hc] at h; cases h
  | ok o => rw [hc] at h; cases h; exact ⟨rfl, rfl, rfl⟩

theorem NewService_ok {f : XContext} {s : Service} (h : NewService f = .ok s) :
    s.functionContext = f ∧ s.resourceName = "xdeployment-service-" ++ f.xr.name
      ∧ s.conditionType = "ServiceReady" := by
  simp only [NewService] at h
  cases hc : ConvertObserved decodeService f.observed ("xdeployment-service-" ++ f.xr.name) with
  | error e => rw [hc] at h; cases h
  | ok o => rw [hc] at h; cases h; exact ⟨rfl, rfl, rfl⟩

theorem NewHttpRoute_ok {f : XContext} {h : HttpRoute} (hh : NewHttpRoute f = .ok h) :
    h.functionContext = f ∧ h.resourceName = "xdeployment-httproute-" ++ f.xr.name
      ∧ h.conditionType = "HttpRouteReady" := by
  simp only [NewHttpRoute] at hh
  cases hc : ConvertObserved decodeHTTPRoute f.observed ("xdeployment-httproute-" ++ f.xr.name) with
  | error e => rw [hc] at hh; cases hh
  | ok o => rw [hc] at hh; cases hh; exact ⟨rfl, rfl, rfl⟩

theorem deployment_compose_eq (rsp : Response) (d : Deployment) :
    ComposerV.composeDesiredResource composedFrom rsp (.deployment d)
      = (rsp, .ok (some { name := d.resourceName
                          resource := .deployment d.createResource
                          ready := false })) := rfl

theorem service_compose_eq (rsp : Response) (s : Service) :
    ComposerV.composeDesiredResource composedFrom rsp (.service s)
      = (rsp, .ok (s.createResource.map (fun res =>
          { name := s.resourceName, resource := .service res, ready := false }))) := by
  cases h : s.createResource <;>
    simp [ComposerV.composeDesiredResource, Service.ComposeDesiredResource, h,
      toGoObject, ComposeDesiredResourceFrom, composedFrom]

theorem httproute_compose_eq (rsp : Response) (h : HttpRoute) :
    ComposerV.composeDesiredResource composedFrom rsp (.httproute h)
      = (rsp, .ok (h.createResource.map (fun res =>
          { name := h.resourceName, resource := .httproute res, ready := false }))) := by
  cases hc : h.createResource <;>
    simp [ComposerV.composeDesiredResource, HttpRoute.ComposeDesiredResource, hc,
      toGoObject, ComposeDesiredResourceFrom, composedFrom]

/-- Response after the readiness branch of one loop iteration. -/
def stepReady (rsp : Response) (r : ComposerV) : Response :=
  if r.isReady then conditionTrue rsp r.getConditionType "Available" .composite
  else
    conditionFalse rsp r.getConditionType "Unavailable"
      (some (r.getConditionType ++ " is not yet available")) .composite

theorem stepReady_conditions_map (rsp : Response) (r : ComposerV) :
    (stepReady rsp r).conditions.map Condition.ctype
      = rsp.conditions.map Condition.ctype ++ [r.getConditionType] := by
  unfold stepReady
  cases hr : r.isReady <;> simp [conditionTrue, conditionFalse]

theorem composeLoop_step_none {fromFn : ResourceBody → Except String ResourceBody}
    {r : ComposerV} {rest : List ComposerV} {rsp rsp1 : Response}
    {desired : List (String × DesiredEntry)}
    (h : ComposerV.composeDesiredResource fromFn rsp r = (rsp1, .ok none)) :
    composeLoop fromFn (r :: rest) rsp desired = composeLoop fromFn rest rsp1 desired := by
  conv_lhs => rw [composeLoop]
  rw [h]

theorem composeLoop_step_some {fromFn : ResourceBody → Except String ResourceBody}
    {r : ComposerV} {rest : List ComposerV} {rsp rsp1 : Response}
    {desired : List (String × DesiredEntry)} {dr : DesiredResource}
    (h : ComposerV.composeDesiredResource fromFn rsp r = (rsp1, .ok (some dr))) :
    composeLoop fromFn (r :: rest) rsp desired
      = composeLoop fromFn rest (stepReady rsp1 r)
          (insertEntry desired dr.name { resource := dr.resource, ready := r.isReady }) := by
  conv_lhs => rw [composeLoop]
  rw [h]
  unfold stepReady
  cases hr : r.isReady <;> simp [hr]

theorem composeLoop_step_error {fromFn : ResourceBody → Except String ResourceBody}
    {r : ComposerV} {rest : List ComposerV} {rsp rsp1 : Response}
    {desired : List (String × DesiredEntry)} {e : String}
    (h : ComposerV.composeDesiredResource fromFn rsp r = (rsp1, .error e)) :
    composeLoop fromFn (r :: rest) rsp desired
      = .error (conditionFalse rsp1 r.getConditionType "CompositionError" (some e) .composite, e) := by
  conv_lhs => rw [composeLoop]
  rw [h]

theorem lookupName_insertEntry_self :
    ∀ (m : List (String × DesiredEntry)) (k : String) (v : DesiredEntry),
      lookupName (insertEntry m k v) k = some v
  | [], k, v => by simp [insertEntry, lookupName]
  | (k', w) :: rest, k, v => by
    by_cases h : k' = k
    · simp [insertEntry, h, lookupName]
    · simp [insertEntry, h, lookupName, lookupName_insertEntry_self rest k v]

theorem lookupName_insertEntry_ne :
    ∀ (m : List (String × DesiredEntry)) (k : String) (v : DesiredEntry) (k' : String),
      k' ≠ k → lookupName (insertEntry m k v) k' = lookupName m k'
  | [], k, v, k' => by intro h; simp [insertEntry, lookupName, Ne.symm h]
  | (k0, w) :: rest, k, v, k' => by
    intro h
    by_cases h0 : k0 = k
    · subst h0
      simp [insertEntry, lookupName, Ne.symm h]
    · by_cases h1 : k0 = k'
      · subst h1
        simp [insertEntry, h0, lookupName]
      · simp [insertEntry, h0, lookupName, h1, lookupName_insertEntry_ne rest k v k' h]

theorem string_append_ne_of_length_ne (s₁ s₂ n : String) (h : s₁.length ≠ s₂.length) :
    s₁ ++ n ≠ s₂ ++ n := by
  intro he
  apply h
  have hl : (s₁ ++ n).length = (s₂ ++ n).length := congrArg String.length he
  rw [String.length_append, String.length_append] at hl
  omega

/-- The route-target nil check of HttpRoute.createResource: the gateway
reference is usable only when the defaults pointer and its gateway field
are both non-nil. -/
def gatewayOf : Option XDeploymentDefaults → Option GatewayConfig
  | none => none
  | some dv => dv.gateway

theorem Service.createResource_none {s : Service}
    (h : s.functionContext.xr.spec.port = none) : s.createResource = none := by
  simp [Service.createResource, h]

/-- The Service body built for a given composite name and target port
(the literal of Service.createResource). -/
def builtService (name : String) (p : Int) : ServiceRes :=
  { name := name
    svcType := "ClusterIP"
    selector := [("app.kubernetes.io/name", name)]
    ports := [{ name := "http", protocol := "TCP", port := 8080, targetPort := p }] }

theorem Service.createResource_of_port {s : Service} {p : Int}
    (h : s.functionContext.xr.spec.port = some p) :
    s.createResource = some (builtService s.functionContext.xr.name p) := by
  simp [Service.createResource, builtService, h]

theorem HttpRoute.createResource_none_of_no_gateway {h : HttpRoute}
    (hg : gatewayOf h.functionContext.defaults = none) : h.createResource = none := by
  cases hd : h.functionContext.defaults with
  | none => simp [HttpRoute.createResource, hd]
  | some dv =>
    rw [hd] at hg
    simp only [gatewayOf] at hg
    simp [HttpRoute.createResource, hd, hg]

theorem HttpRoute.createResource_none_of_port {h : HttpRoute}
    (hp : h.functionContext.xr.spec.port = none) : h.createResource = none := by
  cases hd : h.functionContext.defaults with
  | none => simp [HttpRoute.createResource, hd]
  | some dv =>
    cases hg : dv.gateway with
    | none => simp [HttpRoute.createResource, hd, hg]
    | some gw => simp [HttpRoute.createResource, hd, hg, hp]

theorem HttpRoute.createResource_none_of_hostname {h : HttpRoute}
    (hh : h.functionContext.xr.spec.hostname = "") : h.createResource = none := by
  cases hd : h.functionContext.defaults with
  | none => simp [HttpRoute.createResource, hd]
  | some dv =>
    cases hg : dv.gateway with
    | none => simp [HttpRoute.createResource, hd, hg]
    | some gw => simp [HttpRoute.createResource, hd, hg, hh]

theorem HttpRoute.createResource_of_preconditions {h : HttpRoute} {gw : GatewayConfig} {p : Int}
    (hg : gatewayOf h.functionContext.defaults = some gw)
    (hp : h.functionContext.xr.spec.port = some p)
    (hh : h.functionContext.xr.spec.hostname ≠ "") :
    h.createResource = some
      { name := h.functionContext.xr.name
        parentRefs := [{ name := gw.name, nspace := gw.nspace }]
        hostnames := [h.functionContext.xr.spec.hostname]
        backendRefs := [{ name := h.functionContext.xr.name, port := 8080 }] } := by
  cases hd : h.functionContext.defaults with
  | none => rw [hd] at hg; cases hg
  | some dv =>
    rw [hd] at hg
    simp only [gatewayOf] at hg
    simp [HttpRoute.createResource, hd, hg, hp, hh]

/-! Theorems settling the claims. -/

theorem httpRoute_createResource_isSome (h : HttpRoute) :
    (h.createResource.isSome = true ↔
      (h.functionContext.xr.spec.port.isSome = true
        ∧ h.functionContext.xr.spec.hostname ≠ ""
        ∧ (gatewayOf h.functionContext.defaults).isSome = true)) := by
  cases hg : gatewayOf h.functionContext.defaults with
  | none =>
    rw [HttpRoute.createResource_none_of_no_gateway hg]
    simp
  | some gw =>
    cases hp : h.functionContext.xr.spec.port with
    | none =>
      rw [HttpRoute.createResource_none_of_port hp]
      simp
    | some p =>
      by_cases hh : h.functionContext.xr.spec.hostname = ""
      · rw [HttpRoute.createResource_none_of_hostname hh]
        simp [hh]
      · rw [HttpRoute.createResource_of_preconditions hg hp hh]
        simp [hh]

/-- C3: the external-route composer builds an HTTPRoute iff `spec.port`
is set, `spec.hostname` is non-empty, and the static-config route target
is configured (a configured `GatewayConfig` always carries its name and
namespace, which are plain string fields); otherwise the result is
`none` (absence), not an error. -/
theorem httpRoute_built_iff_preconditions (h : HttpRoute) :
    (h.createResource.isSome = true ↔
      (h.functionContext.xr.spec.port.isSome = true
        ∧ h.functionContext.xr.spec.hostname ≠ ""
        ∧ (gatewayOf h.functionContext.defaults).isSome = true)) :=
  httpRoute_createResource_isSome h

/-- C9: the built Deployment's replica count is exactly the spec's value
when set (no lower-bound validation, zero and negative values pass
through), and 2 when unset. -/
theorem deployment_replicas_default (d : Deployment) :
    (Deployment.createResource d).replicas
      = d.functionContext.xr.spec.replicas.getD 2 := by
  cases h : d.functionContext.xr.spec.replicas <;>
    simp [Deployment.createResource, h]

/-- C5: the composer constructors derive the resource names exactly as
`xdeployment-deployment-<name>`, `xdeployment-service-<name>` and
`xdeployment-httproute-<name>`, and identical spec names always yield
identical names for every kind. -/
theorem resource_names {f : XContext} {dep : Deployment} {svc : Service} {rt : HttpRoute}
    (hd : NewDeployment f = .ok dep) (hs : NewService f = .ok svc)
    (hh : NewHttpRoute f = .ok rt) :
    dep.resourceName = "xdeployment-deployment-" ++ f.xr.name
      ∧ svc.resourceName = "xdeployment-service-" ++ f.xr.name
      ∧ rt.resourceName = "xdeployment-httproute-" ++ f.xr.name
      ∧ (∀ (g : XContext) (dep2 : Deployment) (svc2 : Service) (rt2 : HttpRoute),
          g.xr.name = f.xr.name →
          NewDeployment g = .ok dep2 → NewService g = .ok svc2 →
          NewHttpRoute g = .ok rt2 →
          dep2.resourceName = dep.resourceName ∧ svc2.resourceName = svc.resourceName
            ∧ rt2.resourceName = rt.resourceName) := by
  obtain ⟨-, hdn, -⟩ := NewDeployment_ok hd
  obtain ⟨-, hsn, -⟩ := NewService_ok hs
  obtain ⟨-, hhn, -⟩ := NewHttpRoute_ok hh
  refine ⟨hdn, hsn, hhn, ?_⟩
  intro g dep2 svc2 rt2 hg hd2 hs2 hh2
  obtain ⟨-, hdn2, -⟩ := NewDeployment_ok hd2
  obtain ⟨-, hsn2, -⟩ := NewService_ok hs2
  obtain ⟨-, hhn2, -⟩ := NewHttpRoute_ok hh2
  rw [hdn, hsn, hhn, hdn2, hsn2, hhn2, hg]
  exact ⟨rfl, rfl, rfl⟩

/-- Context used to witness the naming theorem. -/
def ctxW : XContext :=
  { observed := []
    xr := { name := "test-app"
            spec := { image := "nginx:latest", replicas := none, port := none,
                      hostname := "", env := [] } }
    defaults := none }

/-- Deployment composer built from `ctxW`. -/
def depW : Deployment :=
  { functionContext := ctxW
    resourceName := "xdeployment-deployment-" ++ "test-app"
    conditionType := "DeploymentReady"
    observedResource := none }

/-- Service composer built from `ctxW`. -/
def svcW : Service :=
  { functionContext := ctxW
    resourceName := "xdeployment-service-" ++ "test-app"
    conditionType := "ServiceReady"
    observedResource := none }

/-- HttpRoute composer built from `ctxW`. -/
def rtW : HttpRoute :=
  { functionContext := ctxW
    resourceName := "xdeployment-httproute-" ++ "test-app"
    conditionType := "HttpRouteReady"
    observedResource := none }

/-- Witness for C5 at the context of the repository's own tests. -/
theorem resource_names_witness :
    depW.resourceName = "xdeployment-deployment-" ++ ctxW.xr.name
      ∧ svcW.resourceName = "xdeployment-service-" ++ ctxW.xr.name
      ∧ rtW.resourceName = "xdeployment-httproute-" ++ ctxW.xr.name :=
  have h := @resource_names ctxW depW svcW rtW rfl rfl rfl
  ⟨h.1, h.2.1, h.2.2.1⟩

/-- C8: the route composer's IsReady is true iff some parent-acceptance
status entry of the observed HTTPRoute has an Accepted condition with
status True; with no observed route it is false. -/
theorem httpRoute_ready_iff_accepted (h : HttpRoute) :
    (h.IsReady = true ↔
      ∃ o, h.observedResource = some o ∧
        ∃ parent ∈ o.parents, ∃ c ∈ parent.conditions,
          c.ctype = "Accepted" ∧ c.status = "True")
      ∧ (h.observedResource = none → h.IsReady = false) := by
  cases ho : h.observedResource with
  | none => simp [HttpRoute.IsReady, ho]
  | some o =>
    constructor
    · simp [HttpRoute.IsReady, ho, List.any_eq_true]
    · intro hc
      cases hc

/-- Observed route accepted by its second parent, for the C8 witness. -/
def rtReadyW : HttpRoute :=
  { functionContext := ctxW
    resourceName := "xdeployment-httproute-" ++ "test-app"
    conditionType := "HttpRouteReady"
    observedResource := some
      { parents := [{ conditions := [{ ctype := "Accepted", status := "False" }] },
                    { conditions := [{ ctype := "Accepted", status := "True" }] }] } }

/-- Witness for C8: ready with an accepting parent, not ready with no
observed route. -/
theorem httpRoute_ready_iff_accepted_witness :
    rtReadyW.IsReady = true ∧ rtW.IsReady = false :=
  ⟨(httpRoute_ready_iff_accepted rtReadyW).1.mpr
      ⟨_, rfl, { conditions := [{ ctype := "Accepted", status := "True" }] },
        by simp [rtReadyW], { ctype := "Accepted", status := "True" }, by simp, rfl, rfl⟩,
    (httpRoute_ready_iff_accepted rtW).2 rfl⟩

/-- C10: ComposeDesiredResourceFrom treats both the nil interface and a
non-nil interface wrapping a typed nil pointer — as produced by a service
or route composer whose precondition failed — as intentional absence,
returning no desired resource and no error. -/
theorem compose_nil_absence (fromFn : ResourceBody → Except String ResourceBody)
    (rsp : Response) (resourceName : String) :
    ComposeDesiredResourceFrom fromFn rsp resourceName .nilInterface = (rsp, .ok none)
      ∧ ComposeDesiredResourceFrom fromFn rsp resourceName .typedNil = (rsp, .ok none)
      ∧ (∀ s : Service, s.functionContext.xr.spec.port = none →
            Service.ComposeDesiredResource fromFn rsp s = (rsp, .ok none))
      ∧ (∀ h : HttpRoute, gatewayOf h.functionContext.defaults = none →
            HttpRoute.ComposeDesiredResource fromFn rsp h = (rsp, .ok none)) := by
  refine ⟨rfl, rfl, ?_, ?_⟩
  · intro s hp
    simp [Service.ComposeDesiredResource, Service.createResource_none hp,
      toGoObject, ComposeDesiredResourceFrom]
  · intro h hg
    simp [HttpRoute.ComposeDesiredResource, HttpRoute.createResource_none_of_no_gateway hg,
      toGoObject, ComposeDesiredResourceFrom]

/-- Witness for C10 at the composers built from `ctxW` (no port, no
gateway config). -/
theorem compose_nil_absence_witness :
    Service.ComposeDesiredResource composedFrom
        { conditions := [], results := [], desired := [] } svcW
      = ({ conditions := [], results := [], desired := [] }, .ok none)
      ∧ HttpRoute.ComposeDesiredResource composedFrom
          { conditions := [], results := [], desired := [] } rtW
        = ({ conditions := [], results := [], desired := [] }, .ok none) :=
  have h := compose_nil_absence composedFrom
    { conditions := [], results := [], desired := [] } "unused"
  ⟨h.2.2.1 svcW rfl, h.2.2.2 rtW rfl⟩

/-- C4: converting an env mapping yields the entries sorted
lexicographically by key — the documented example included — identically
for every iteration order of the same mapping, and an empty mapping
yields the empty sequence (conversion is total, so no error). -/
theorem convertEnvVars_sorted_deterministic :
    (∀ l : List (String × String),
        l.Perm [("ZEBRA", "z"), ("ALPHA", "a"), ("BETA", "b")] →
          convertEnvVars l =
            [{ name := "ALPHA", value := "a" }, { name := "BETA", value := "b" },
             { name := "ZEBRA", value := "z" }])
      ∧ convertEnvVars [] = []
      ∧ (∀ l, List.Sorted strLeP ((convertEnvVars l).map EnvVar.name))
      ∧ (∀ l₁ l₂, (l₁.map Prod.fst).Nodup → l₁.Perm l₂ →
          convertEnvVars l₁ = convertEnvVars l₂) := by
  refine ⟨?_, rfl, convertEnvVars_names_sorted, convertEnvVars_perm⟩
  intro l hp
  have hnd : (l.map Prod.fst).Nodup := (hp.map Prod.fst).nodup_iff.mpr (by decide)
  rw [convertEnvVars_perm l _ hnd hp]
  decide

/-- Witness for C4 at a concrete iteration order of the documented
example mapping. -/
theorem convertEnvVars_sorted_deterministic_witness :
    convertEnvVars [("BETA", "b"), ("ZEBRA", "z"), ("ALPHA", "a")] =
      [{ name := "ALPHA", value := "a" }, { name := "BETA", value := "b" },
       { name := "ZEBRA", value := "z" }] :=
  convertEnvVars_sorted_deterministic.1 _ (by decide)

/-! Reduction of RunFunction to the composer loop once all decoding and
construction steps succeed, and distinctness of the derived names. -/

theorem RunFunction_composersEq {fromFn : ResourceBody → Except String ResourceBody}
    {req : Request} {dv : XDeploymentDefaults} {obs : List (String × ObservedRaw)}
    {des : List (String × DesiredEntry)} {xd : XDeployment}
    {dep : Deployment} {svc : Service} {rt : HttpRoute}
    (hin : req.inputR = .ok dv) (hobs : req.observedR = .ok obs)
    (hdes : req.desiredR = .ok des) (hxr : req.xrR = .ok xd)
    (hD : NewDeployment { observed := obs, xr := xd, defaults := some dv } = .ok dep)
    (hS : NewService { observed := obs, xr := xd, defaults := some dv } = .ok svc)
    (hH : NewHttpRoute { observed := obs, xr := xd, defaults := some dv } = .ok rt) :
    RunFunction fromFn req =
      (match composeLoop fromFn [.deployment dep, .service svc, .httproute rt]
          (responseTo req) des with
        | .error (_, e) => (none, some e)
        | .ok (rspF, desF) => (some (setDesiredComposedResources rspF desF), none)) := by
  unfold RunFunction
  simp only [hin, hobs, hdes, hxr, hD, hS, hH]

theorem depName_ne_svcName (n : String) :
    "xdeployment-deployment-" ++ n ≠ "xdeployment-service-" ++ n :=
  string_append_ne_of_length_ne _ _ _ (by decide)

theorem depName_ne_rtName (n : String) :
    "xdeployment-deployment-" ++ n ≠ "xdeployment-httproute-" ++ n :=
  string_append_ne_of_length_ne _ _ _ (by decide)

theorem svcName_ne_rtName (n : String) :
    "xdeployment-service-" ++ n ≠ "xdeployment-httproute-" ++ n :=
  string_append_ne_of_length_ne _ _ _ (by decide)

/-- C1 (amended): for every invocation that reaches the composer loop
with no build error, and whose incoming desired set carries no entry
under the engine's deterministic names, the response's desired set has
an entry for a kind iff that kind's precondition holds, an absent kind
contributes neither an entry nor a condition, and with `port` unset
exactly one condition (DeploymentReady) is emitted.  Without the
incoming-desired restriction the claim fails: caller-supplied entries
are passed through (see the counterexample). -/
theorem run_desired_iff_preconditions
    {req : Request} {dv : XDeploymentDefaults} {obs : List (String × ObservedRaw)}
    {des : List (String × DesiredEntry)} {xd : XDeployment}
    {dep : Deployment} {svc : Service} {rt : HttpRoute}
    (hin : req.inputR = .ok dv) (hobs : req.observedR = .ok obs)
    (hdes : req.desiredR = .ok des) (hxr : req.xrR = .ok xd)
    (hD : NewDeployment { observed := obs, xr := xd, defaults := some dv } = .ok dep)
    (hS : NewService { observed := obs, xr := xd, defaults := some dv } = .ok svc)
    (hH : NewHttpRoute { observed := obs, xr := xd, defaults := some dv } = .ok rt)
    (hcd : lookupName des ("xdeployment-deployment-" ++ xd.name) = none)
    (hcs : lookupName des ("xdeployment-service-" ++ xd.name) = none)
    (hcr : lookupName des ("xdeployment-httproute-" ++ xd.name) = none) :
    ∃ rsp, RunFunction composedFrom req = (some rsp, none)
      ∧ (lookupName rsp.desired ("xdeployment-deployment-" ++ xd.name)).isSome = true
      ∧ ((lookupName rsp.desired ("xdeployment-service-" ++ xd.name)).isSome = true
          ↔ xd.spec.port.isSome = true)
      ∧ ((lookupName rsp.desired ("xdeployment-httproute-" ++ xd.name)).isSome = true
          ↔ (xd.spec.port.isSome = true ∧ xd.spec.hostname ≠ ""
              ∧ dv.gateway.isSome = true))
      ∧ rsp.conditions.map Condition.ctype
          = ["DeploymentReady"]
            ++ (if xd.spec.port.isSome = true then ["ServiceReady"] else [])
            ++ (if xd.spec.port.isSome = true ∧ xd.spec.hostname ≠ ""
                  ∧ dv.gateway.isSome = true then ["HttpRouteReady"] else [])
      ∧ (xd.spec.port = none →
          rsp.conditions.map Condition.ctype = ["DeploymentReady"]
            ∧ lookupName rsp.desired ("xdeployment-service-" ++ xd.name) = none
            ∧ lookupName rsp.desired ("xdeployment-httproute-" ++ xd.name) = none) := by
  obtain ⟨hDfc0, hDname0, hDcond⟩ := NewDeployment_ok hD
  obtain ⟨hSfc0, hSname0, hScond⟩ := NewService_ok hS
  obtain ⟨hHfc0, hHname0, hHcond⟩ := NewHttpRoute_ok hH
  have hDname : dep.resourceName = "xdeployment-deployment-" ++ xd.name := hDname0
  have hSname : svc.resourceName = "xdeployment-service-" ++ xd.name := hSname0
  have hHname : rt.resourceName = "xdeployment-httproute-" ++ xd.name := hHname0
  have hrun := @RunFunction_composersEq composedFrom req dv obs des xd dep svc rt
    hin hobs hdes hxr hD hS hH
  have hiff : rt.createResource.isSome = true
      ↔ (xd.spec.port.isSome = true ∧ xd.spec.hostname ≠ ""
          ∧ dv.gateway.isSome = true) := by
    have h0 := httpRoute_createResource_isSome rt
    rw [hHfc0] at h0
    simpa [gatewayOf] using h0
  cases hport : xd.spec.port with
  | none =>
    have hports : svc.functionContext.xr.spec.port = none := by rw [hSfc0]; exact hport
    have hsc := Service.createResource_none hports
    have hportr : rt.functionContext.xr.spec.port = none := by rw [hHfc0]; exact hport
    have hrc := HttpRoute.createResource_none_of_port hportr
    have hloop : composeLoop composedFrom
        [.deployment dep, .service svc, .httproute rt] (responseTo req) des
        = .ok (stepReady (responseTo req) (.deployment dep),
              insertEntry des dep.resourceName
                { resource := .deployment dep.createResource,
                  ready := (ComposerV.deployment dep).isReady }) := by
      rw [composeLoop_step_some (deployment_compose_eq (responseTo req) dep)]
      rw [composeLoop_step_none (by rw [service_compose_eq, hsc]; rfl)]
      rw [composeLoop_step_none (by rw [httproute_compose_eq, hrc]; rfl)]
      rfl
    have hcondmap : (stepReady (responseTo req)
        (ComposerV.deployment dep)).conditions.map Condition.ctype
        = ["DeploymentReady"] := by
      rw [stepReady_conditions_map]
      simp [responseTo, ComposerV.getConditionType, hDcond]
    have hlooks : lookupName (insertEntry des dep.resourceName
          { resource := .deployment dep.createResource,
            ready := (ComposerV.deployment dep).isReady })
        ("xdeployment-service-" ++ xd.name) = none := by
      rw [hDname, lookupName_insertEntry_ne _ _ _ _ (Ne.symm (depName_ne_svcName xd.name)),
        hcs]
    have hlookr : lookupName (insertEntry des dep.resourceName
          { resource := .deployment dep.createResource,
            ready := (ComposerV.deployment dep).isReady })
        ("xdeployment-httproute-" ++ xd.name) = none := by
      rw [hDname, lookupName_insertEntry_ne _ _ _ _ (Ne.symm (depName_ne_rtName xd.name)),
        hcr]
    refine ⟨_, by rw [hrun, hloop], ?_, ?_, ?_, ?_, ?_⟩
    · simp only [setDesiredComposedResources]
      rw [hDname, lookupName_insertEntry_self]
      rfl
    · simp only [setDesiredComposedResources]
      rw [hlooks]
      simp [hport]
    · simp only [setDesiredComposedResources]
      rw [hlookr]
      simp [hport]
    · simp only [setDesiredComposedResources]
      rw [hcondmap]
      simp [hport]
    · intro _
      exact ⟨by simp only [setDesiredComposedResources]; rw [hcondmap],
        by simp only [setDesiredComposedResources]; rw [hlooks],
        by simp only [setDesiredComposedResources]; rw [hlookr]⟩
  | some p =>
    have hports : svc.functionContext.xr.spec.port = some p := by rw [hSfc0]; exact hport
    have hsc := Service.createResource_of_port hports
    have hscomp : ∀ rsp : Response,
        ComposerV.composeDesiredResource composedFrom rsp (.service svc)
          = (rsp, .ok (some { name := svc.resourceName,
                              resource := .service
                                (builtService svc.functionContext.xr.name p),
                              ready := false })) := by
      intro rsp
      rw [service_compose_eq, hsc]
      rfl
    cases hroute : rt.createResource with
    | none =>
      have hA : xd.spec.port.isSome = true := by rw [hport]; rfl
      have hpre : ¬(xd.spec.port.isSome = true ∧ xd.spec.hostname ≠ ""
          ∧ dv.gateway.isSome = true) := by
        intro hc
        have h1 := hiff.mpr hc
        rw [hroute] at h1
        cases h1
      have hpre2 : ¬(xd.spec.hostname ≠ "" ∧ dv.gateway.isSome = true) :=
        fun hc => hpre ⟨hA, hc⟩
      have hloop : composeLoop composedFrom
          [.deployment dep, .service svc, .httproute rt] (responseTo req) des
          = .ok (stepReady (stepReady (responseTo req) (.deployment dep)) (.service svc),
                insertEntry
                  (insertEntry des dep.resourceName
                    { resource := .deployment dep.createResource,
                      ready := (ComposerV.deployment dep).isReady })
                  svc.resourceName
                  { resource := .service (builtService svc.functionContext.xr.name p),
                    ready := (ComposerV.service svc).isReady }) := by
        rw [composeLoop_step_some (deployment_compose_eq (responseTo req) dep)]
        rw [composeLoop_step_some (hscomp _)]
        rw [composeLoop_step_none (by rw [httproute_compose_eq, hroute]; rfl)]
        rfl
      have hcondmap : (stepReady (stepReady (responseTo req) (ComposerV.deployment dep))
          (ComposerV.service svc)).conditions.map Condition.ctype
          = ["DeploymentReady", "ServiceReady"] := by
        rw [stepReady_conditions_map, stepReady_conditions_map]
        simp [responseTo, ComposerV.getConditionType, hDcond, hScond]
      refine ⟨_, by rw [hrun, hloop], ?_, ?_, ?_, ?_, ?_⟩
      · simp only [setDesiredComposedResources]
        rw [hSname, lookupName_insertEntry_ne _ _ _ _ (depName_ne_svcName xd.name),
          hDname, lookupName_insertEntry_self]
        rfl
      · simp only [setDesiredComposedResources]
        rw [hSname, lookupName_insertEntry_self]
        simp [hport]
      · simp only [setDesiredComposedResources]
        rw [hSname, lookupName_insertEntry_ne _ _ _ _ (Ne.symm (svcName_ne_rtName xd.name)),
          hDname, lookupName_insertEntry_ne _ _ _ _ (Ne.symm (depName_ne_rtName xd.name)),
          hcr]
        simp [hpre2]
      · simp only [setDesiredComposedResources]
        rw [hcondmap]
        simp [hpre2]
      · intro hc
        simp at hc
    | some rres =>
      have hpre : xd.spec.port.isSome = true ∧ xd.spec.hostname ≠ ""
          ∧ dv.gateway.isSome = true := by
        apply hiff.mp
        rw [hroute]
        rfl
      have hrcomp : ∀ rsp : Response,
          ComposerV.composeDesiredResource composedFrom rsp (.httproute rt)
            = (rsp, .ok (some { name := rt.resourceName,
                                resource := .httproute rres,
                                ready := false })) := by
        intro rsp
        rw [httproute_compose_eq, hroute]
        rfl
      have hloop : composeLoop composedFrom
          [.deployment dep, .service svc, .httproute rt] (responseTo req) des
          = .ok (stepReady (stepReady (stepReady (responseTo req) (.deployment dep))
                  (.service svc)) (.httproute rt),
                insertEntry
                  (insertEntry
                    (insertEntry des dep.resourceName
                      { resource := .deployment dep.createResource,
                        ready := (ComposerV.deployment dep).isReady })
                    svc.resourceName
                    { resource := .service (builtService svc.functionContext.xr.name p),
                      ready := (ComposerV.service svc).isReady })
                  rt.resourceName
                  { resource := .httproute rres,
                    ready := (ComposerV.httproute rt).isReady }) := by
        rw [composeLoop_step_some (deployment_compose_eq (responseTo req) dep)]
        rw [composeLoop_step_some (hscomp _)]
        rw [composeLoop_step_some (hrcomp _)]
        rfl
      have hcondmap : (stepReady (stepReady (stepReady (responseTo req)
          (ComposerV.deployment dep)) (ComposerV.service svc))
          (ComposerV.httproute rt)).conditions.map Condition.ctype
          = ["DeploymentReady", "ServiceReady", "HttpRouteReady"] := by
        rw [stepReady_conditions_map, stepReady_conditions_map, stepReady_conditions_map]
        simp [responseTo, ComposerV.getConditionType, hDcond, hScond, hHcond]
      refine ⟨_, by rw [hrun, hloop], ?_, ?_, ?_, ?_, ?_⟩
      · simp only [setDesiredComposedResources]
        rw [hHname, lookupName_insertEntry_ne _ _ _ _ (depName_ne_rtName xd.name),
          hSname, lookupName_insertEntry_ne _ _ _ _ (depName_ne_svcName xd.name),
          hDname, lookupName_insertEntry_self]
        rfl
      · simp only [setDesiredComposedResources]
        rw [hHname, lookupName_insertEntry_ne _ _ _ _ (svcName_ne_rtName xd.name),
          hSname, lookupName_insertEntry_self]
        simp [hport]
      · simp only [setDesiredComposedResources]
        rw [hHname, lookupName_insertEntry_self]
        simp [hpre.2.1, hpre.2.2]
      · simp only [setDesiredComposedResources]
        rw [hcondmap]
        simp [hpre.2.1, hpre.2.2]
      · intro hc
        simp at hc

/-- Composite, defaults and request used to witness C1 (the end-to-end
example of the repository's own tests). -/
def xdW2 : XDeployment :=
  { name := "test-app"
    spec := { image := "nginx:latest", replicas := none, port := some 8080,
              hostname := "test.example.com", env := [] } }

/-- Defaults with a fully populated gateway, for the C1 witness. -/
def dvW2 : XDeploymentDefaults :=
  { gateway := some { name := "my-gateway", nspace := "gateway-ns" } }

/-- Request of the C1 witness: all decodes succeed, nothing observed,
empty incoming desired set. -/
def reqW2 : Request :=
  { inputR := .ok dvW2, observedR := .ok [], desiredR := .ok [], xrR := .ok xdW2 }

/-- Witness for C1 at the end-to-end example request. -/
theorem run_desired_iff_preconditions_witness :
    ∃ rsp, RunFunction composedFrom reqW2 = (some rsp, none)
      ∧ (lookupName rsp.desired ("xdeployment-deployment-" ++ xdW2.name)).isSome = true
      ∧ ((lookupName rsp.desired ("xdeployment-service-" ++ xdW2.name)).isSome = true
          ↔ xdW2.spec.port.isSome = true)
      ∧ ((lookupName rsp.desired ("xdeployment-httproute-" ++ xdW2.name)).isSome = true
          ↔ (xdW2.spec.port.isSome = true ∧ xdW2.spec.hostname ≠ ""
              ∧ dvW2.gateway.isSome = true))
      ∧ rsp.conditions.map Condition.ctype
          = ["DeploymentReady"]
            ++ (if xdW2.spec.port.isSome = true then ["ServiceReady"] else [])
            ++ (if xdW2.spec.port.isSome = true ∧ xdW2.spec.hostname ≠ ""
                  ∧ dvW2.gateway.isSome = true then ["HttpRouteReady"] else [])
      ∧ (xdW2.spec.port = none →
          rsp.conditions.map Condition.ctype = ["DeploymentReady"]
            ∧ lookupName rsp.desired ("xdeployment-service-" ++ xdW2.name) = none
            ∧ lookupName rsp.desired ("xdeployment-httproute-" ++ xdW2.name) = none) :=
  run_desired_iff_preconditions rfl rfl rfl rfl rfl rfl rfl rfl rfl rfl

/-- Composite of the C1 counterexample: `port` unset. -/
def xdC1 : XDeployment :=
  { name := "app1"
    spec := { image := "nginx", replicas := none, port := none,
              hostname := "", env := [] } }

/-- Stale caller-supplied desired entry under the service's
deterministic name. -/
def staleEntry : DesiredEntry :=
  { resource := .service { name := "app1", svcType := "ClusterIP",
                           selector := [], ports := [] }
    ready := false }

/-- Request of the C1 counterexample: decodes succeed, `port` unset, but
the incoming desired set already carries a service entry. -/
def reqC1 : Request :=
  { inputR := .ok { gateway := none }
    observedR := .ok []
    desiredR := .ok [("xdeployment-service-app1", staleEntry)]
    xrR := .ok xdC1 }

/-- Counterexample to C1 as stated: the invocation reaches the composer
loop and completes, `port` is unset so the service precondition fails,
yet the response's desired set still contains the service entry (the
caller-supplied entry is passed through), so the stated iff is false. -/
theorem run_desired_iff_preconditions_cex :
    ((RunFunction composedFrom reqC1).1.map
        (fun rsp => (lookupName rsp.desired "xdeployment-service-app1").isSome))
        = some true
      ∧ (RunFunction composedFrom reqC1).2 = none
      ∧ xdC1.spec.port = none := by
  refine ⟨by decide, by decide, rfl⟩

/-- C2 (amended): every fatal failure halts the invocation with no
partial desired state.  Input-decoding failures return a response whose
only condition is FunctionSuccess=False with reason InternalError
targeting composite and claim, with the request's desired state passed
through unchanged and one fatal result.  A per-composer build error
records a condition of that composer's own condition type (not
FunctionSuccess) with status False and reason CompositionError targeting
the composite only, aborts the remaining composers, and makes the
invocation return an error with no response at all. -/
theorem fatal_failure_semantics :
    (∀ (fromFn : ResourceBody → Except String ResourceBody) (req : Request),
        (req.inputR.isOk = false ∨ req.observedR.isOk = false
          ∨ req.desiredR.isOk = false ∨ req.xrR.isOk = false) →
        ∃ rsp, RunFunction fromFn req = (some rsp, none)
          ∧ rsp.conditions = [{ ctype := "FunctionSuccess", status := false,
                                reason := "InternalError", message := none,
                                target := ConditionTarget.compositeAndClaim }]
          ∧ rsp.desired = req.rawDesired
          ∧ rsp.results.length = 1)
      ∧ (∀ (fromFn : ResourceBody → Except String ResourceBody) (r : ComposerV)
            (rest : List ComposerV) (rsp rsp1 : Response)
            (desired : List (String × DesiredEntry)) (e : String),
          ComposerV.composeDesiredResource fromFn rsp r = (rsp1, .error e) →
            composeLoop fromFn (r :: rest) rsp desired
              = .error (conditionFalse rsp1 r.getConditionType "CompositionError"
                        (some e) .composite, e))
      ∧ (∀ (fromFn : ResourceBody → Except String ResourceBody) (req : Request)
            (dv : XDeploymentDefaults) (obs : List (String × ObservedRaw))
            (des : List (String × DesiredEntry)) (xd : XDeployment)
            (dep : Deployment) (svc : Service) (rt : HttpRoute)
            (rspE : Response) (e : String),
          req.inputR = .ok dv → req.observedR = .ok obs → req.desiredR = .ok des →
          req.xrR = .ok xd →
          NewDeployment { observed := obs, xr := xd, defaults := some dv } = .ok dep →
          NewService { observed := obs, xr := xd, defaults := some dv } = .ok svc →
          NewHttpRoute { observed := obs, xr := xd, defaults := some dv } = .ok rt →
          composeLoop fromFn [.deployment dep, .service svc, .httproute rt]
              (responseTo req) des = .error (rspE, e) →
          RunFunction fromFn req = (none, some e)) := by
  refine ⟨?_, ?_, ?_⟩
  · intro fromFn req hfail
    cases hin : req.inputR with
    | error e =>
      refine ⟨InternalErrorResponse (responseTo req)
          ("cannot get Function input: " ++ e), ?_, ?_, ?_, ?_⟩
      · simp only [RunFunction, hin]
      · simp [InternalErrorResponse, responseFatal, conditionFalse, responseTo]
      · simp [InternalErrorResponse, responseFatal, conditionFalse, responseTo]
      · simp [InternalErrorResponse, responseFatal, conditionFalse, responseTo]
    | ok dv =>
      cases hobs : req.observedR with
      | error e =>
        refine ⟨InternalErrorResponse (responseTo req)
            ("cannot get observed resources: " ++ e), ?_, ?_, ?_, ?_⟩
        · simp only [RunFunction, hin, hobs]
        · simp [InternalErrorResponse, responseFatal, conditionFalse, responseTo]
        · simp [InternalErrorResponse, responseFatal, conditionFalse, responseTo]
        · simp [InternalErrorResponse, responseFatal, conditionFalse, responseTo]
      | ok obs =>
        cases hdes : req.desiredR with
        | error e =>
          refine ⟨InternalErrorResponse (responseTo req)
              ("cannot get desired resources: " ++ e), ?_, ?_, ?_, ?_⟩
          · simp only [RunFunction, hin, hobs, hdes]
          · simp [InternalErrorResponse, responseFatal, conditionFalse, responseTo]
          · simp [InternalErrorResponse, responseFatal, conditionFalse, responseTo]
          · simp [InternalErrorResponse, responseFatal, conditionFalse, responseTo]
        | ok des =>
          cases hxr : req.xrR with
          | error e =>
            refine ⟨InternalErrorResponse (responseTo req)
                ("cannot convert composite resource to XDeployment: " ++ e), ?_, ?_, ?_, ?_⟩
            · simp only [RunFunction, hin, hobs, hdes, hxr]
            · simp [InternalErrorResponse, responseFatal, conditionFalse, responseTo]
            · simp [InternalErrorResponse, responseFatal, conditionFalse, responseTo]
            · simp [InternalErrorResponse, responseFatal, conditionFalse, responseTo]
          | ok xd =>
            exfalso
            rcases hfail with h | h | h | h <;>
              simp [hin, hobs, hdes, hxr, Except.isOk, Except.toBool] at h
  · exact fun fromFn r rest rsp rsp1 desired e h => composeLoop_step_error h
  · intro fromFn req dv obs des xd dep svc rt rspE e hin hobs hdes hxr hD hS hH hloop
    rw [RunFunction_composersEq hin hobs hdes hxr hD hS hH, hloop]

/-- A conversion that fails, standing for a `composed.From` build
error. -/
def badFrom : ResourceBody → Except String ResourceBody := fun _ => .error "boom"

/-- Composite of the C2 scenarios. -/
def xdC2 : XDeployment :=
  { name := "app2"
    spec := { image := "img", replicas := none, port := none,
              hostname := "", env := [] } }

/-- Well-formed request of the C2 scenarios. -/
def reqC2 : Request :=
  { inputR := .ok { gateway := none }
    observedR := .ok []
    desiredR := .ok []
    xrR := .ok xdC2 }

/-- Deployment composer the handler constructs for `reqC2`. -/
def depC2 : Deployment :=
  { functionContext := { observed := [], xr := xdC2, defaults := some { gateway := none } }
    resourceName := "xdeployment-deployment-" ++ "app2"
    conditionType := "DeploymentReady"
    observedResource := none }

/-- Service composer the handler constructs for `reqC2`. -/
def svcC2 : Service :=
  { functionContext := { observed := [], xr := xdC2, defaults := some { gateway := none } }
    resourceName := "xdeployment-service-" ++ "app2"
    conditionType := "ServiceReady"
    observedResource := none }

/-- HttpRoute composer the handler constructs for `reqC2`. -/
def rtC2 : HttpRoute :=
  { functionContext := { observed := [], xr := xdC2, defaults := some { gateway := none } }
    resourceName := "xdeployment-httproute-" ++ "app2"
    conditionType := "HttpRouteReady"
    observedResource := none }

/-- Conditions recorded on the response threaded through the composer
loop, on either outcome. -/
def errConditions :
    Except (Response × String) (Response × List (String × DesiredEntry)) → List Condition
  | .error (rsp, _) => rsp.conditions
  | .ok (rsp, _) => rsp.conditions

/-- Counterexample to C2 as stated: at a concrete per-composer build
error the invocation returns an error with no response — so no condition
is surfaced at all — and the condition recorded before the abort has the
composer's own type DeploymentReady, not FunctionSuccess. -/
theorem fatal_failure_semantics_cex :
    RunFunction badFrom reqC2 = (none, some "boom")
      ∧ errConditions (composeLoop badFrom
            [.deployment depC2, .service svcC2, .httproute rtC2] (responseTo reqC2) [])
          = [{ ctype := "DeploymentReady", status := false,
               reason := "CompositionError",
               message := some "boom", target := .composite }]
      ∧ "DeploymentReady" ≠ "FunctionSuccess" := by
  refine ⟨by decide, by decide, by decide⟩

/-- Request whose function input fails to decode. -/
def reqBadInput : Request :=
  { inputR := .error "bad", observedR := .ok [], desiredR := .ok [], xrR := .ok xdC2 }

/-- Witness for C2 (amended): a concrete decode failure and a concrete
build error. -/
theorem fatal_failure_semantics_witness :
    (∃ rsp, RunFunction composedFrom reqBadInput = (some rsp, none)
        ∧ rsp.conditions = [{ ctype := "FunctionSuccess", status := false,
                              reason := "InternalError", message := none,
                              target := ConditionTarget.compositeAndClaim }]
        ∧ rsp.desired = reqBadInput.rawDesired
        ∧ rsp.results.length = 1)
      ∧ RunFunction badFrom reqC2 = (none, some "boom") := by
  constructor
  · exact fatal_failure_semantics.1 composedFrom reqBadInput (Or.inl rfl)
  · exact fatal_failure_semantics.2.2 badFrom reqC2 _ _ _ _ depC2 svcC2 rtC2 _ "boom"
      rfl rfl rfl rfl rfl rfl rfl (by rfl)

/-- C6: the observed lookup-and-decode returns None with no error when
the name was never observed, and errors only when a value is present but
fails to decode; a composer-constructor error is fatal and halts the
pipeline immediately with no condition, no added desired entry and a
single fatal result — for whichever of the three constructors fails. -/
theorem convertObserved_contract :
    (∀ (T : Type) (decode : ObservedRaw → Except String T)
        (observed : List (String × ObservedRaw)) (resourceName : String),
        lookupName observed resourceName = none →
          ConvertObserved decode observed resourceName = .ok none)
      ∧ (∀ (T : Type) (decode : ObservedRaw → Except String T)
            (observed : List (String × ObservedRaw)) (resourceName e : String),
          ConvertObserved decode observed resourceName = .error e →
            ∃ raw, lookupName observed resourceName = some raw ∧ decode raw = .error e)
      ∧ (∀ (fromFn : ResourceBody → Except String ResourceBody) (req : Request)
            (dv : XDeploymentDefaults) (obs : List (String × ObservedRaw))
            (des : List (String × DesiredEntry)) (xd : XDeployment) (e : String),
          req.inputR = .ok dv → req.observedR = .ok obs → req.desiredR = .ok des →
          req.xrR = .ok xd →
          NewDeployment { observed := obs, xr := xd, defaults := some dv } = .error e →
          ∃ rsp, RunFunction fromFn req = (some rsp, none)
            ∧ rsp.conditions = [] ∧ rsp.desired = req.rawDesired
            ∧ rsp.results = ["cannot create deployment: " ++ e])
      ∧ (∀ (fromFn : ResourceBody → Except String ResourceBody) (req : Request)
            (dv : XDeploymentDefaults) (obs : List (String × ObservedRaw))
            (des : List (String × DesiredEntry)) (xd : XDeployment)
            (dep : Deployment) (e : String),
          req.inputR = .ok dv → req.observedR = .ok obs → req.desiredR = .ok des →
          req.xrR = .ok xd →
          NewDeployment { observed := obs, xr := xd, defaults := some dv } = .ok dep →
          NewService { observed := obs, xr := xd, defaults := some dv } = .error e →
          ∃ rsp, RunFunction fromFn req = (some rsp, none)
            ∧ rsp.conditions = [] ∧ rsp.desired = req.rawDesired
            ∧ rsp.results = ["cannot create service: " ++ e])
      ∧ (∀ (fromFn : ResourceBody → Except String ResourceBody) (req : Request)
            (dv : XDeploymentDefaults) (obs : List (String × ObservedRaw))
            (des : List (String × DesiredEntry)) (xd : XDeployment)
            (dep : Deployment) (svc : Service) (e : String),
          req.inputR = .ok dv → req.observedR = .ok obs → req.desiredR = .ok des →
          req.xrR = .ok xd →
          NewDeployment { observed := obs, xr := xd, defaults := some dv } = .ok dep →
          NewService { observed := obs, xr := xd, defaults := some dv } = .ok svc →
          NewHttpRoute { observed := obs, xr := xd, defaults := some dv } = .error e →
          ∃ rsp, RunFunction fromFn req = (some rsp, none)
            ∧ rsp.conditions = [] ∧ rsp.desired = req.rawDesired
            ∧ rsp.results = ["cannot create httpRoute: " ++ e]) := by
  refine ⟨?_, ?_, ?_, ?_, ?_⟩
  · intro T decode observed resourceName h
    unfold ConvertObserved
    rw [h]
  · intro T decode observed resourceName e h
    unfold ConvertObserved at h
    cases hl : lookupName observed resourceName with
    | none => rw [hl] at h; cases h
    | some raw =>
      rw [hl] at h
      cases hd : decode raw with
      | error e2 =>
        simp only [hd] at h
        cases h
        exact ⟨raw, rfl, hd⟩
      | ok v =>
        simp only [hd] at h
        cases h
  · intro fromFn req dv obs des xd e hin hobs hdes hxr hD
    refine ⟨responseFatal (responseTo req) ("cannot create deployment: " ++ e),
      ?_, ?_, ?_, ?_⟩
    · simp only [RunFunction, hin, hobs, hdes, hxr, hD]
    · simp [responseFatal, responseTo]
    · simp [responseFatal, responseTo]
    · simp [responseFatal, responseTo]
  · intro fromFn req dv obs des xd dep e hin hobs hdes hxr hD hS
    refine ⟨responseFatal (responseTo req) ("cannot create service: " ++ e),
      ?_, ?_, ?_, ?_⟩
    · simp only [RunFunction, hin, hobs, hdes, hxr, hD, hS]
    · simp [responseFatal, responseTo]
    · simp [responseFatal, responseTo]
    · simp [responseFatal, responseTo]
  · intro fromFn req dv obs des xd dep svc e hin hobs hdes hxr hD hS hH
    refine ⟨responseFatal (responseTo req) ("cannot create httpRoute: " ++ e),
      ?_, ?_, ?_, ?_⟩
    · simp only [RunFunction, hin, hobs, hdes, hxr, hD, hS, hH]
    · simp [responseFatal, responseTo]
    · simp [responseFatal, responseTo]
    · simp [responseFatal, responseTo]

/-- Observed map carrying a corrupt value under the deployment's
deterministic name. -/
def obsCorruptD : List (String × ObservedRaw) :=
  [("xdeployment-deployment-app2", .corrupt "bad-observed")]

/-- Request whose observed deployment is corrupt. -/
def reqCorruptD : Request :=
  { inputR := .ok { gateway := none }
    observedR := .ok obsCorruptD
    desiredR := .ok []
    xrR := .ok xdC2 }

/-- Witness for C6: an unobserved name, a corrupt observed value, and
the resulting halted invocation. -/
theorem convertObserved_contract_witness :
    ConvertObserved decodeDeployment [] "xdeployment-deployment-app2" = .ok none
      ∧ (∃ raw, lookupName obsCorruptD "xdeployment-deployment-app2" = some raw
          ∧ decodeDeployment raw = .error "bad-observed")
      ∧ (∃ rsp, RunFunction composedFrom reqCorruptD = (some rsp, none)
          ∧ rsp.conditions = [] ∧ rsp.desired = reqCorruptD.rawDesired
          ∧ rsp.results = ["cannot create deployment: " ++ "bad-observed"]) := by
  refine ⟨?_, ?_, ?_⟩
  · exact convertObserved_contract.1 _ decodeDeployment [] _ rfl
  · exact convertObserved_contract.2.1 _ decodeDeployment obsCorruptD _ _ rfl
  · exact convertObserved_contract.2.2.1 composedFrom reqCorruptD _ _ _ _ _
      rfl rfl rfl rfl rfl

/-- C7: every non-absent built object is wrapped with readyFlag false
(whatever the body is), and the loop alone flips it: the merged desired
entry's ready flag equals that composer's IsReady, never a function of
the wrapped body's own flag. -/
theorem ready_flag_contract :
    (∀ (fromFn : ResourceBody → Except String ResourceBody) (rsp : Response)
        (resourceName : String) (r c : ResourceBody),
        fromFn r = .ok c →
          ComposeDesiredResourceFrom fromFn rsp resourceName (.obj r)
            = (rsp, .ok (some { name := resourceName, resource := c, ready := false })))
      ∧ (∀ (fromFn : ResourceBody → Except String ResourceBody) (r : ComposerV)
            (rest : List ComposerV) (rsp rsp1 : Response)
            (desired : List (String × DesiredEntry)) (dr : DesiredResource),
          ComposerV.composeDesiredResource fromFn rsp r = (rsp1, .ok (some dr)) →
            dr.ready = false
              ∧ composeLoop fromFn (r :: rest) rsp desired
                  = composeLoop fromFn rest (stepReady rsp1 r)
                      (insertEntry desired dr.name
                        { resource := dr.resource, ready := r.isReady })) := by
  constructor
  · intro fromFn rsp resourceName r c hc
    simp [ComposeDesiredResourceFrom, hc]
  · intro fromFn r rest rsp rsp1 desired dr h
    refine ⟨?_, composeLoop_step_some h⟩
    cases r with
    | deployment d =>
      cases hf : fromFn (.deployment d.createResource) with
      | error e =>
        simp [ComposerV.composeDesiredResource, Deployment.ComposeDesiredResource,
          ComposeDesiredResourceFrom, hf] at h
      | ok c =>
        simp [ComposerV.composeDesiredResource, Deployment.ComposeDesiredResource,
          ComposeDesiredResourceFrom, hf] at h
        rw [← h.2]
    | service s =>
      cases hc : s.createResource with
      | none =>
        simp [ComposerV.composeDesiredResource, Service.ComposeDesiredResource,
          hc, toGoObject, ComposeDesiredResourceFrom] at h
      | some res =>
        cases hf : fromFn (.service res) with
        | error e =>
          simp [ComposerV.composeDesiredResource, Service.ComposeDesiredResource,
            hc, toGoObject, ComposeDesiredResourceFrom, hf] at h
        | ok c =>
          simp [ComposerV.composeDesiredResource, Service.ComposeDesiredResource,
            hc, toGoObject, ComposeDesiredResourceFrom, hf] at h
          rw [← h.2]
    | httproute rt =>
      cases hc : rt.createResource with
      | none =>
        simp [ComposerV.composeDesiredResource, HttpRoute.ComposeDesiredResource,
          hc, toGoObject, ComposeDesiredResourceFrom] at h
      | some res =>
        cases hf : fromFn (.httproute res) with
        | error e =>
          simp [ComposerV.composeDesiredResource, HttpRoute.ComposeDesiredResource,
            hc, toGoObject, ComposeDesiredResourceFrom, hf] at h
        | ok c =>
          simp [ComposerV.composeDesiredResource, HttpRoute.ComposeDesiredResource,
            hc, toGoObject, ComposeDesiredResourceFrom, hf] at h
          rw [← h.2]

/-- Witness for C7 at the deployment composer of `reqC2`. -/
theorem ready_flag_contract_witness :
    (ComposeDesiredResourceFrom composedFrom
        { conditions := [], results := [], desired := [] } "n"
        (.obj (.deployment depC2.createResource))
      = ({ conditions := [], results := [], desired := [] },
          .ok (some { name := "n", resource := .deployment depC2.createResource,
                      ready := false })))
      ∧ (({ name := depC2.resourceName, resource := .deployment depC2.createResource,
            ready := false } : DesiredResource).ready = false
          ∧ composeLoop composedFrom [.deployment depC2]
              { conditions := [], results := [], desired := [] } []
            = composeLoop composedFrom []
                (stepReady { conditions := [], results := [], desired := [] }
                  (.deployment depC2))
                (insertEntry [] depC2.resourceName
                  { resource := .deployment depC2.createResource,
                    ready := (ComposerV.deployment depC2).isReady })) := by
  constructor
  · exact ready_flag_contract.1 composedFrom _ "n" _ _ rfl
  · exact ready_flag_contract.2 composedFrom (.deployment depC2) []
      { conditions := [], results := [], desired := [] }
      { conditions := [], results := [], desired := [] } [] _
      (deployment_compose_eq _ depC2)

end XDeploymentFn
